import Mathlib

/-!
Verification development for the UptimeMonitor monitoring engine.

The definitions below are shallow embeddings of the TypeScript sources:
* `HealthChecker.*`    — backend/src/services/healthChecker.ts
* `SslChecker.*`       — backend/src/services/sslChecker.ts
* `IncidentModel.*`    — backend/src/models/Service.ts (IncidentModel)
* `MonitoringService.*`— backend/src/services/monitoringService.ts
* `OnCallScheduleModel.*` — backend/src/models/Service.ts (OnCallScheduleModel)

Machine integers are modelled as `Nat`/`Int` (JavaScript number arithmetic in
the relevant code paths is exact integer arithmetic on timestamps and counts);
timestamps are epoch milliseconds unless noted.  Network traffic is not
modelled: each checker takes the observed outcome of the network exchange as
an explicit argument, and the functions below are the pure classification and
state-transition logic applied to it.
-/

/-- Status values a health check can produce (`HealthCheckResult['status']`). -/
inductive CheckStatus
  | operational
  | degraded
  | down
deriving DecidableEq, Repr

/-- Status values a service row can hold (`Service['status']`), including the
initial `unknown`. -/
inductive ServiceStatus
  | unknown
  | operational
  | degraded
  | down
deriving DecidableEq, Repr

/-- Injection of check statuses into service statuses (a check never reports
`unknown`). -/
def CheckStatus.toService : CheckStatus → ServiceStatus
  | .operational => .operational
  | .degraded => .degraded
  | .down => .down

/-- Alert classification policies (`AlertType` in models/Service.ts). -/
inductive AlertType
  | unavailable
  | contains_keyword
  | not_contains_keyword
  | http_status_other_than
deriving DecidableEq, Repr

/-- The fields of a `Service` row that the monitoring engine reads.
Optional TS fields are `Option`; `alert_keyword`/`alert_http_statuses` are the
raw stored strings, defaulted inside the checker exactly as the JS `||`
defaults do. -/
structure Service where
  url : String
  timeout : Nat                       -- seconds
  check_interval : Nat                -- seconds
  alert_type : AlertType
  alert_keyword : Option String := none
  alert_http_statuses : Option String := none
  verify_ssl : Bool := false
  ssl_expiry_threshold : Int := 30
  verify_domain : Bool := false
deriving DecidableEq, Repr

/-- Outcome of the axios exchange, as observed by `HealthChecker.checkService`:
either a response arrived (status code, status text, body), the request timed
out (`ECONNABORTED`), the request was made but no response arrived, or some
other error was thrown. -/
inductive HttpOutcome
  | response (statusCode : Nat) (statusText : String) (body : String)
  | timedOut
  | noResponse (message : String)
  | otherError (message : String)
deriving DecidableEq, Repr

/-- `HealthCheckResult` from healthChecker.ts. -/
structure HealthCheckResult where
  status : CheckStatus
  response_time : Option Nat := none
  status_code : Option Nat := none
  error_message : Option String := none
  ssl_valid : Option Bool := none
  ssl_expires_at : Option Int := none
  ssl_issuer : Option String := none
  ssl_days_remaining : Option Int := none
  domain_valid : Option Bool := none
  domain_error : Option String := none
deriving DecidableEq, Repr

/-- `SslCheckResult` from sslChecker.ts (`expires_at` as epoch ms). -/
structure SslCheckResult where
  valid : Bool
  expires_at : Option Int := none
  issuer : Option String := none
  days_remaining : Option Int := none
  error : Option String := none
deriving DecidableEq, Repr

/-- `DomainCheckResult` from domainChecker.ts (addresses omitted — the engine
never reads them). -/
structure DomainCheckResult where
  valid : Bool
  error : Option String := none
deriving DecidableEq, Repr

/-- Splitting a character list at a separator, the semantics of JS
`String.prototype.split` with a single-character separator (as used for the
comma-separated `alert_http_statuses` list). -/
def splitOnChar (sep : Char) (cs : List Char) : List (List Char) :=
  cs.foldr (fun c acc =>
    if c = sep then [] :: acc
    else match acc with
      | [] => [[c]]
      | g :: gs => (c :: g) :: gs) [[]]

/-- JS `String.prototype.trim`: drop leading and trailing whitespace. -/
def trimChars (cs : List Char) : List Char :=
  ((cs.dropWhile Char.isWhitespace).reverse.dropWhile Char.isWhitespace).reverse

/-- Value of a list of decimal digit characters. -/
def digitsToNat (ds : List Char) : Nat :=
  ds.foldl (fun n c => n * 10 + (c.toNat - 48)) 0

/-- JS `parseInt(s.trim(), 10)` restricted to radix 10, returning `none` for
`NaN`: after trimming, an optional sign followed by at least one decimal
digit; parsing stops at the first non-digit. -/
def parseIntJS (cs : List Char) : Option Int :=
  match trimChars cs with
  | [] => none
  | c :: rest =>
    let signAndDigits : Int × List Char :=
      if c = '-' then (-1, rest)
      else if c = '+' then (1, rest)
      else (1, c :: rest)
    let ds := signAndDigits.2.takeWhile Char.isDigit
    if ds.isEmpty then none else some (signAndDigits.1 * (digitsToNat ds : Int))

/-- JS `String.prototype.includes`: substring containment. -/
def stringIncludes (body keyword : String) : Bool :=
  decide (keyword.data <:+: body.data)

namespace HealthChecker

/-- The allow-list parse in healthChecker.ts:
`(service.alert_http_statuses || '200').split(',').map(s => parseInt(s.trim(), 10)).filter(n => !isNaN(n))`.
The JS `||` default fires when the field is absent or the empty string. -/
def parseExpectedStatuses (cfg : Option String) : List Int :=
  let raw : String := match cfg with
    | some c => if c = "" then "200" else c
    | none => "200"
  ((splitOnChar ',' raw.data).map parseIntJS).filterMap (fun x => x)

/-- The `validateStatus` axios option built in checkService: for
`http_status_other_than` every status is accepted; otherwise statuses `< 500`
are accepted (so a 5xx response is thrown and lands in the catch path). -/
def validateStatus (alertType : AlertType) (code : Nat) : Bool :=
  match alertType with
  | .http_status_other_than => true
  | _ => decide (code < 500)

/-- The per-policy base verdict of checkService's success path (lines 88–130):
status together with the optional error message. -/
def classifyPolicy (service : Service) (code : Nat) (body : String) :
    CheckStatus × Option String :=
  match service.alert_type with
  | .contains_keyword =>
    let keyword := service.alert_keyword.getD ""
    if keyword ≠ "" ∧ stringIncludes body keyword = true then
      (.down, some ("Response contains keyword \"" ++ keyword ++ "\""))
    else (.operational, none)
  | .not_contains_keyword =>
    let keyword := service.alert_keyword.getD ""
    if keyword ≠ "" ∧ ¬ stringIncludes body keyword = true then
      (.down, some ("Response does not contain keyword \"" ++ keyword ++ "\""))
    else (.operational, none)
  | .http_status_other_than =>
    let expectedStatuses := parseExpectedStatuses service.alert_http_statuses
    if (code : Int) ∈ expectedStatuses then (.operational, none)
    else
      (.down, some ("HTTP " ++ toString code ++ " (expected " ++
        String.intercalate ", " (expectedStatuses.map toString) ++ ")"))
  | .unavailable =>
    if 200 ≤ code ∧ code < 500 then (.operational, none) else (.down, none)

/-- The slow-response downgrade (line 133): an operational verdict becomes
degraded when the elapsed time exceeds `timeout * 1000 * 0.8` ms, written
exactly as `timeout * 800`. -/
def applySlowOverlay (service : Service) (elapsedMs : Nat) (st : CheckStatus) :
    CheckStatus :=
  if st = .operational ∧ elapsedMs > service.timeout * 800 then .degraded else st

/-- The HTTP portion of `HealthChecker.checkService`: the success path when
axios accepted the status, otherwise the catch-path classification of the
error. -/
def checkServiceHttp (service : Service) (outcome : HttpOutcome)
    (elapsedMs : Nat) : HealthCheckResult :=
  match outcome with
  | .response code text body =>
    if validateStatus service.alert_type code = true then
      let base := classifyPolicy service code body
      { status := applySlowOverlay service elapsedMs base.1,
        response_time := some elapsedMs,
        status_code := some code,
        error_message := base.2 }
    else if service.alert_type = .http_status_other_than ∧
        (code : Int) ∈ parseExpectedStatuses service.alert_http_statuses then
      -- catch path, expected 5xx for http_status_other_than (lines 160–173)
      { status := .operational,
        response_time := some elapsedMs,
        status_code := some code }
    else
      -- catch path, server responded with an error status (lines 176–181)
      { status := .down,
        response_time := some elapsedMs,
        status_code := some code,
        error_message := some ("HTTP " ++ toString code ++ ": " ++ text) }
  | .timedOut =>
    { status := .down, response_time := some elapsedMs,
      error_message := some "Request timeout" }
  | .noResponse message =>
    { status := .down, response_time := some elapsedMs,
      error_message := some (if message = "" then "No response received" else message) }
  | .otherError message =>
    { status := .down, response_time := some elapsedMs,
      error_message := some message }

end HealthChecker

/-- The repeated message-accumulation pattern of performSslDomainChecks:
`result.error_message ? result.error_message + '; ' + msg : msg`. -/
def appendMessage (old : Option String) (msg : String) : String :=
  match old with
  | some m => m ++ "; " ++ msg
  | none => msg

namespace HealthChecker

/-- The domain-verification block of `performSslDomainChecks`
(lines 221–236): when `verify_domain` is set, record the DNS verdict; on
failure force `down` and append the failure text to the error message. -/
def applyDomainCheck (service : Service) (domainResult : DomainCheckResult)
    (r : HealthCheckResult) : HealthCheckResult :=
  if service.verify_domain then
    let r1 := { r with domain_valid := some domainResult.valid }
    if domainResult.valid = false then
      { r1 with
        domain_error := domainResult.error,
        status := .down,
        error_message := some (appendMessage r1.error_message
          ("Domain verification failed: " ++ (domainResult.error.getD "undefined"))) }
    else r1
  else r

/-- The SSL-verification block of `performSslDomainChecks` (lines 239–272):
when `verify_ssl` is set and the URL is HTTPS, record the certificate data; an
invalid certificate forces `down`; a valid certificate with
`days_remaining ≤ threshold` (threshold `service.ssl_expiry_threshold || 30`,
0 being falsy in JS) downgrades an `operational` status to `degraded` and
appends the expiry warning. -/
def applySslCheck (service : Service) (sslResult : SslCheckResult)
    (r : HealthCheckResult) : HealthCheckResult :=
  if service.verify_ssl = true ∧ "https://".data.isPrefixOf service.url.data = true then
    let r2 := { r with
      ssl_valid := some sslResult.valid,
      ssl_expires_at := sslResult.expires_at,
      ssl_issuer := sslResult.issuer,
      ssl_days_remaining := sslResult.days_remaining }
    if sslResult.valid = false then
      { r2 with
        status := .down,
        error_message := some (appendMessage r2.error_message
          ("SSL: " ++ (sslResult.error.getD "SSL certificate invalid"))) }
    else
      match sslResult.days_remaining with
      | some d =>
        let threshold : Int :=
          if service.ssl_expiry_threshold = 0 then 30 else service.ssl_expiry_threshold
        if d ≤ threshold then
          { r2 with
            status := if r2.status = .operational then .degraded else r2.status,
            error_message := some (appendMessage r2.error_message
              ("SSL certificate expires in " ++ toString d ++ " days")) }
        else r2
      | none => r2
  else r

/-- `HealthChecker.performSslDomainChecks`: the TLS/DNS overlay applied to the
HTTP verdict — domain verification first, then SSL verification, exactly the
two sequential blocks of the source.  The DNS and TLS results are inputs (the
validators themselves always resolve with a result value). -/
def performSslDomainChecks (service : Service) (domainResult : DomainCheckResult)
    (sslResult : SslCheckResult) (r : HealthCheckResult) : HealthCheckResult :=
  applySslCheck service sslResult (applyDomainCheck service domainResult r)

/-- `HealthChecker.checkService`: HTTP classification followed by the TLS/DNS
overlay. -/
def checkService (service : Service) (outcome : HttpOutcome) (elapsedMs : Nat)
    (domainResult : DomainCheckResult) (sslResult : SslCheckResult) :
    HealthCheckResult :=
  performSslDomainChecks service domainResult sslResult
    (checkServiceHttp service outcome elapsedMs)

end HealthChecker

namespace SslChecker

/-- `SslChecker.check`, successful-connection path: given whether the chain was
trusted (`socket.authorized`), the certificate expiry (`valid_to`, epoch ms),
the current time, and the issuer organisation / common-name fields (absent or
empty strings are falsy in the JS guards), build the `SslCheckResult`. -/
def check (authorized : Bool) (validToMs nowMs : Int)
    (issuerO issuerCN : Option String) : SslCheckResult :=
  let daysRemaining : Int := (validToMs - nowMs).fdiv 86400000
  let issuerParts : List String :=
    (match issuerO with
      | some o => if o = "" then [] else [o]
      | none => []) ++
    (match issuerCN with
      | some cn => if cn = "" then [] else [cn]
      | none => [])
  let joined := String.intercalate " - " issuerParts
  { valid := authorized && decide (0 < daysRemaining),
    expires_at := some validToMs,
    issuer := some (if joined = "" then "Unknown" else joined),
    days_remaining := some daysRemaining,
    error := if authorized then none else some "Certificate not trusted" }

end SslChecker

namespace MonitoringService

/-- The cron expression chosen by `MonitoringService.scheduleService`: either
`* * * * *` (every minute) or `*/N * * * *` (every N minutes). -/
inductive CronExpression
  | everyMinute
  | everyNMinutes (n : Nat)
deriving DecidableEq, Repr

/-- The check_interval → cron coercion of scheduleService (lines 109–127). -/
def scheduleCronExpression (intervalSeconds : Nat) : CronExpression :=
  if intervalSeconds < 60 then .everyMinute
  else if intervalSeconds = 60 then .everyMinute
  else if intervalSeconds % 60 = 0 then
    let minutes := intervalSeconds / 60
    if minutes < 60 then .everyNMinutes minutes else .everyMinute
  else .everyMinute

/-- Tick period, in seconds, of a cron expression (idealising `*/N` as a tick
every N minutes). -/
def cronPeriodSeconds : CronExpression → Nat
  | .everyMinute => 60
  | .everyNMinutes n => 60 * n

/-- Effective tick period of a scheduled service. -/
def effectivePeriodSeconds (intervalSeconds : Nat) : Nat :=
  cronPeriodSeconds (scheduleCronExpression intervalSeconds)

end MonitoringService

/-- `Incident` row from models/Service.ts (timestamps as epoch ms). -/
structure Incident where
  service_id : Nat
  started_at : Int
  resolved_at : Option Int := none
  duration : Option Int := none
  error_message : Option String := none
  notification_sent : Bool := false
deriving DecidableEq, Repr

namespace IncidentModel

/-- `IncidentModel.resolve`: set the resolve timestamp and
`duration = Math.floor((resolvedAt - startedAt) / 1000)` (whole seconds,
floor division). -/
def resolve (i : Incident) (nowMs : Int) : Incident :=
  { i with resolved_at := some nowMs,
           duration := some ((nowMs - i.started_at).fdiv 1000) }

/-- `IncidentModel.getActiveByServiceId`: the most recent incident with
`resolved_at IS NULL`.  Incident lists are held newest-first (creation
prepends), matching the `ORDER BY started_at DESC` of the query for runs whose
tick times are non-decreasing. -/
def getActiveByServiceId (incidents : List Incident) : Option Incident :=
  incidents.find? (fun i => i.resolved_at.isNone)

/-- Resolving the active (first open) incident of a list in place; incidents
that already carry a resolve timestamp pass through untouched. -/
def resolveActive (incidents : List Incident) (nowMs : Int) : List Incident :=
  match incidents with
  | [] => []
  | i :: rest =>
    if i.resolved_at.isNone then resolve i nowMs :: rest
    else i :: resolveActive rest nowMs

/-- Rounding to 3 decimal places, the `parseFloat(x.toFixed(3))` step of the
uptime computation (ties round up, as `toFixed` picks the larger candidate). -/
def round3 (q : ℚ) : ℚ := (round (q * 1000) : ℚ) / 1000

/-- The `uptime_percentage` computation of
`IncidentModel.getDowntimeLogByServiceId` (lines 289–328): total downtime of
resolved incidents plus the live duration of the active incident, divided by
the wall-clock seconds since the service was created; 100 when that
denominator is not positive. -/
def uptimePercentage (createdAtMs nowMs : Int) (incidents : List Incident) : ℚ :=
  let resolvedIncidents := incidents.filter (fun i => i.resolved_at.isSome)
  let totalDowntimeSeconds : Int := (resolvedIncidents.map (fun i => i.duration.getD 0)).sum
  let activeIncident := incidents.find? (fun i => i.resolved_at.isNone)
  let currentDowntimeSeconds : Int :=
    match activeIncident with
    | some a => (nowMs - a.started_at).fdiv 1000
    | none => 0
  let totalMonitoredSeconds : Int := (nowMs - createdAtMs).fdiv 1000
  if 0 < totalMonitoredSeconds then
    let allDowntime : Int := totalDowntimeSeconds + currentDowntimeSeconds
    max 0 (min 100 (round3 ((1 - (allDowntime : ℚ) / (totalMonitoredSeconds : ℚ)) * 100)))
  else 100

/-- Modelled from the spec's formula for §4.4: uptime =
`clamp(0,100, (1 − totalDowntimeSeconds / totalMonitoredSeconds) × 100)`
rounded to 3 decimal places (clamp applied before rounding, as the spec
sentence reads), with the same downtime accounting as the code.  Used to
compare the code's round-then-clamp order against the spec's words. -/
def specUptimePercentage (createdAtMs nowMs : Int) (incidents : List Incident) : ℚ :=
  let resolvedIncidents := incidents.filter (fun i => i.resolved_at.isSome)
  let totalDowntimeSeconds : Int := (resolvedIncidents.map (fun i => i.duration.getD 0)).sum
  let activeIncident := incidents.find? (fun i => i.resolved_at.isNone)
  let currentDowntimeSeconds : Int :=
    match activeIncident with
    | some a => (nowMs - a.started_at).fdiv 1000
    | none => 0
  let totalMonitoredSeconds : Int := (nowMs - createdAtMs).fdiv 1000
  if 0 < totalMonitoredSeconds then
    let allDowntime : Int := totalDowntimeSeconds + currentDowntimeSeconds
    round3 (max 0 (min 100 ((1 - (allDowntime : ℚ) / (totalMonitoredSeconds : ℚ)) * 100)))
  else 100

end IncidentModel

namespace MonitoringService

/-- Per-target monitoring state: the service's current status column and its
incident rows (newest first). -/
structure TargetState where
  status : ServiceStatus
  incidents : List Incident
deriving DecidableEq, Repr

/-- Observable side effects of one `handleStatusChange` call. -/
structure TickEvents where
  incidentCreated : Bool
  downNotificationAttempted : Bool
  recoveredNotificationAttempted : Bool
deriving DecidableEq, Repr

/-- `MonitoringService.handleStatusChange`: open an incident (and attempt the
down notification) when the target transitions into `down`; resolve the
active incident (and attempt the recovery notification) when it transitions
out of `down`.  `notifyOk` is whether the notifier call succeeded (on failure
the incident keeps `notification_sent = false` and the transition still
happens). -/
def handleStatusChange (serviceId : Nat) (previousStatus newStatus : ServiceStatus)
    (errorMessage : Option String) (nowMs : Int) (notifyOk : Bool)
    (incidents : List Incident) : List Incident × TickEvents :=
  -- Service went down (lines 58–76)
  let afterDown : List Incident × Bool :=
    if previousStatus ≠ .down ∧ newStatus = .down then
      (({ service_id := serviceId, started_at := nowMs,
          error_message := errorMessage,
          notification_sent := notifyOk } : Incident) :: incidents, true)
    else (incidents, false)
  -- Service recovered (lines 79–95)
  let afterRecovered : List Incident × Bool :=
    if previousStatus = .down ∧ newStatus ≠ .down then
      match IncidentModel.getActiveByServiceId afterDown.1 with
      | some _ => (IncidentModel.resolveActive afterDown.1 nowMs, true)
      | none => (afterDown.1, false)
    else (afterDown.1, false)
  (afterRecovered.1,
   { incidentCreated := afterDown.2,
     downNotificationAttempted := afterDown.2,
     recoveredNotificationAttempted := afterRecovered.2 })

/-- One scheduler tick for one target (`MonitoringService.checkService` after
the probe): record the classified result, update the status column, and run
the incident state machine against the previous status. -/
def tick (serviceId : Nat) (s : TargetState) (result : HealthCheckResult)
    (nowMs : Int) (notifyOk : Bool) : TargetState × TickEvents :=
  let stepped := handleStatusChange serviceId s.status result.status.toService
    result.error_message nowMs notifyOk s.incidents
  ({ status := result.status.toService, incidents := stepped.1 }, stepped.2)

/-- State of a freshly created target: status `unknown`, no incidents. -/
def initialState : TargetState :=
  { status := .unknown, incidents := [] }

/-- Folding a sequence of sequential ticks (classified result, tick time,
notifier success) over a target state. -/
def runTicks (serviceId : Nat) (s : TargetState) :
    List (HealthCheckResult × Int × Bool) → TargetState
  | [] => s
  | (r, now, ok) :: rest => runTicks serviceId (tick serviceId s r now ok).1 rest

/-- Number of open (unresolved) incidents in a list. -/
def openIncidentCount (incidents : List Incident) : Nat :=
  (incidents.filter (fun i => i.resolved_at.isNone)).length

/-- The incident-tracker invariant: exactly one open incident while the target
is `down`, none otherwise. -/
def statusInvariant (s : TargetState) : Prop :=
  openIncidentCount s.incidents = if s.status = .down then 1 else 0

end MonitoringService

/-- Recurrence kinds of an on-call schedule. -/
inductive Recurrence
  | none
  | daily
  | weekly
deriving DecidableEq, Repr

/-- `OnCallSchedule` row (contact fields dropped; timestamps as epoch
seconds UTC). -/
structure OnCallSchedule where
  id : Nat
  contact_id : Nat
  start_time : Nat
  end_time : Nat
  recurrence : Recurrence
deriving DecidableEq, Repr

namespace OnCallScheduleModel

/-- `getUTCHours() * 60 + getUTCMinutes()` of an epoch-seconds instant. -/
def minutesOfDay (t : Nat) : Nat := t / 60 % 1440

/-- `getUTCDay()` of an epoch-seconds instant (epoch day zero, 1970-01-01, was
a Thursday, day 4). -/
def dayOfWeek (t : Nat) : Nat := (t / 86400 + 4) % 7

/-- The `day * 1440 + minutes-of-day` projection used by the weekly rule. -/
def weekMinutes (t : Nat) : Nat := dayOfWeek t * 1440 + minutesOfDay t

/-- The window-matching rule of `getCurrentOnCall` for one schedule. -/
def scheduleMatches (s : OnCallSchedule) (now : Nat) : Bool :=
  match s.recurrence with
  | .none => decide (s.start_time ≤ now ∧ now ≤ s.end_time)
  | .daily =>
    let startHM := minutesOfDay s.start_time
    let endHM := minutesOfDay s.end_time
    let nowHM := minutesOfDay now
    if startHM ≤ endHM then decide (startHM ≤ nowHM ∧ nowHM ≤ endHM)
    else decide (nowHM ≥ startHM ∨ nowHM ≤ endHM)
  | .weekly =>
    let startTotal := weekMinutes s.start_time
    let endTotal := weekMinutes s.end_time
    let nowTotal := weekMinutes now
    if startTotal ≤ endTotal then decide (startTotal ≤ nowTotal ∧ nowTotal ≤ endTotal)
    else decide (nowTotal ≥ startTotal ∨ nowTotal ≤ endTotal)

/-- `OnCallScheduleModel.getCurrentOnCall`: the first matching schedule of the
list.  `getAll` feeds it the schedules in ascending `start_time` order
(`ORDER BY s.start_time ASC`), so on sorted input the first match is the
earliest-starting match. -/
def getCurrentOnCall (schedules : List OnCallSchedule) (now : Nat) :
    Option OnCallSchedule :=
  schedules.find? (fun s => scheduleMatches s now)

end OnCallScheduleModel

/-- Example target with the default `unavailable` policy and a 30 s timeout. -/
def svcUnavailable : Service :=
  { url := "http://example.com", timeout := 30, check_interval := 60,
    alert_type := .unavailable }

/-- Example target with policy `http_status_other_than` and allow-list
"200,201" — the spec's scenario. -/
def svcOther : Service :=
  { url := "http://example.com", timeout := 30, check_interval := 60,
    alert_type := .http_status_other_than, alert_http_statuses := some "200,201" }

/-- Example target with policy `contains_keyword`, keyword "error". -/
def svcContains : Service :=
  { url := "http://example.com", timeout := 30, check_interval := 60,
    alert_type := .contains_keyword, alert_keyword := some "error" }

/-- Example target with policy `not_contains_keyword`, keyword "ok". -/
def svcNotContains : Service :=
  { url := "http://example.com", timeout := 30, check_interval := 60,
    alert_type := .not_contains_keyword, alert_keyword := some "ok" }

/-- Example HTTPS target with TLS and DNS checks enabled, threshold 30. -/
def svcTls : Service :=
  { url := "https://example.com", timeout := 30, check_interval := 60,
    alert_type := .unavailable, verify_ssl := true, verify_domain := true,
    ssl_expiry_threshold := 30 }

/-- Example open incident started at 1000 ms. -/
def sampleOpenIncident : Incident :=
  { service_id := 1, started_at := 1000 }

/-- Example down check result, as produced for an HTTP 503. -/
def rDown : HealthCheckResult :=
  { status := .down, error_message := some "HTTP 503: Service Unavailable" }

/-- Example operational check result. -/
def rUp : HealthCheckResult :=
  { status := .operational }

/-- Incident opened by the first down tick of the witness run. -/
def incDown1000 : Incident :=
  { service_id := 1, started_at := 1000,
    error_message := some "HTTP 503: Service Unavailable",
    notification_sent := true }

/-- Target state after that first down tick. -/
def stateDown1000 : MonitoringService.TargetState :=
  { status := .down, incidents := [incDown1000] }

/-- Weekly schedule Mon 09:00–17:00 UTC (epoch day 4 was a Monday). -/
def schedMonA : OnCallSchedule :=
  { id := 1, contact_id := 1, start_time := 4 * 86400 + 9 * 3600,
    end_time := 4 * 86400 + 17 * 3600, recurrence := .weekly }

/-- Weekly schedule Mon 10:00–18:00 UTC, overlapping `schedMonA` with a later
start. -/
def schedMonB : OnCallSchedule :=
  { id := 2, contact_id := 2, start_time := 4 * 86400 + 10 * 3600,
    end_time := 4 * 86400 + 18 * 3600, recurrence := .weekly }

/-- Successful DNS check result. -/
def drOk : DomainCheckResult := { valid := true }

/-- Failed DNS check result. -/
def drFail : DomainCheckResult :=
  { valid := false, error := some "DNS resolution failed: ENOTFOUND" }

/-- Valid, trusted certificate with 10 days remaining. -/
def srGood10 : SslCheckResult :=
  { valid := true, days_remaining := some 10, expires_at := some 864000000,
    issuer := some "Org" }

/-- Invalid certificate result. -/
def srBad : SslCheckResult :=
  { valid := false, error := some "Certificate not trusted" }

/-- Monday 12:00 UTC as epoch seconds (epoch day 4 was a Monday). -/
def monNoon : Nat := 4 * 86400 + 12 * 3600

/-- Saturday 12:00 UTC as epoch seconds (epoch day 2 was a Saturday). -/
def satNoon : Nat := 2 * 86400 + 12 * 3600

/-- The cron coercion written as one conditional. -/
theorem scheduleCronExpression_eq (i : Nat) :
    MonitoringService.scheduleCronExpression i =
      if 60 < i ∧ i < 3600 ∧ i % 60 = 0 then .everyNMinutes (i / 60)
      else .everyMinute := by
  by_cases h : 60 < i ∧ i < 3600 ∧ i % 60 = 0
  · rw [if_pos h]
    unfold MonitoringService.scheduleCronExpression
    rw [if_neg (by omega), if_neg (by omega), if_pos (by omega)]
    show (if i / 60 < 60 then MonitoringService.CronExpression.everyNMinutes (i / 60)
      else MonitoringService.CronExpression.everyMinute) = MonitoringService.CronExpression.everyNMinutes (i / 60)
    rw [if_pos (by omega)]
  · rw [if_neg h]
    unfold MonitoringService.scheduleCronExpression
    rcases Nat.lt_or_ge i 60 with h1 | h1
    · rw [if_pos h1]
    · rw [if_neg (by omega)]
      by_cases h2 : i = 60
      · rw [if_pos h2]
      · rw [if_neg h2]
        by_cases h3 : i % 60 = 0
        · rw [if_pos h3]
          show (if i / 60 < 60 then MonitoringService.CronExpression.everyNMinutes (i / 60)
            else MonitoringService.CronExpression.everyMinute) = MonitoringService.CronExpression.everyMinute
          rw [if_neg (by
            intro hlt
            exact h ⟨by omega, by omega, h3⟩)]
        · rw [if_neg h3]

/-- The effective tick period written as one conditional. -/
theorem effectivePeriodSeconds_eq (i : Nat) :
    MonitoringService.effectivePeriodSeconds i =
      if 60 < i ∧ i < 3600 ∧ i % 60 = 0 then 60 * (i / 60) else 60 := by
  unfold MonitoringService.effectivePeriodSeconds
  rw [scheduleCronExpression_eq]
  split_ifs <;> rfl

/-- Claim C10: the cron coercion gives a tick every `check_interval / 60`
minutes exactly when the interval is a multiple of 60 strictly between 60 and
3600 seconds; every other interval is coerced to one tick per minute, so
checks never run more often than once per minute, and a target with a large
or irregular interval is checked more often than configured. -/
theorem C10_scheduler_cron_coercion (i : Nat) :
    ((60 < i ∧ i < 3600 ∧ i % 60 = 0) →
      MonitoringService.scheduleCronExpression i = .everyNMinutes (i / 60) ∧
      MonitoringService.effectivePeriodSeconds i = i) ∧
    (¬(60 < i ∧ i < 3600 ∧ i % 60 = 0) →
      MonitoringService.scheduleCronExpression i = .everyMinute ∧
      MonitoringService.effectivePeriodSeconds i = 60) ∧
    60 ≤ MonitoringService.effectivePeriodSeconds i ∧
    ((60 < i ∧ (3600 ≤ i ∨ i % 60 ≠ 0)) →
      MonitoringService.effectivePeriodSeconds i < i) := by
  refine ⟨fun h => ⟨?_, ?_⟩, fun h => ⟨?_, ?_⟩, ?_, fun h => ?_⟩
  · rw [scheduleCronExpression_eq, if_pos h]
  · rw [effectivePeriodSeconds_eq, if_pos h]; omega
  · rw [scheduleCronExpression_eq, if_neg h]
  · rw [effectivePeriodSeconds_eq, if_neg h]
  · rw [effectivePeriodSeconds_eq]; split_ifs <;> omega
  · rw [effectivePeriodSeconds_eq]; split_ifs <;> omega

/-- Witness for C10 at concrete intervals. -/
theorem C10_scheduler_cron_coercion_witness :
    MonitoringService.effectivePeriodSeconds 120 = 120 ∧
    MonitoringService.effectivePeriodSeconds 90 = 60 ∧
    MonitoringService.effectivePeriodSeconds 3600 = 60 ∧
    60 ≤ MonitoringService.effectivePeriodSeconds 30 ∧
    MonitoringService.effectivePeriodSeconds 3661 < 3661 :=
  ⟨((C10_scheduler_cron_coercion 120).1 (by decide)).2,
   ((C10_scheduler_cron_coercion 90).2.1 (by decide)).2,
   ((C10_scheduler_cron_coercion 3600).2.1 (by decide)).2,
   (C10_scheduler_cron_coercion 30).2.2.1,
   (C10_scheduler_cron_coercion 3661).2.2.2 (by decide)⟩

/-- Claim C6: resolving an incident sets the resolve timestamp and sets the
duration to the floor of the millisecond difference divided by 1000 (whole
seconds); the duration is non-negative when resolution is no earlier than the
incident start; and incidents that already carry a resolve timestamp are never
touched again by the resolution pass (each incident is resolved exactly
once). -/
theorem C6_incident_resolution :
    (∀ (i : Incident) (nowMs : Int),
      (IncidentModel.resolve i nowMs).resolved_at = some nowMs ∧
      (IncidentModel.resolve i nowMs).duration =
        some ((nowMs - i.started_at).fdiv 1000)) ∧
    (∀ (i : Incident) (nowMs : Int), i.started_at ≤ nowMs →
      ∀ d : Int, (IncidentModel.resolve i nowMs).duration = some d → 0 ≤ d) ∧
    (∀ (l : List Incident) (nowMs : Int) (i : Incident),
      i ∈ l → i.resolved_at.isSome = true →
      i ∈ IncidentModel.resolveActive l nowMs) := by
  refine ⟨fun i nowMs => ⟨rfl, rfl⟩, fun i nowMs h d hd => ?_, fun l => ?_⟩
  · simp only [IncidentModel.resolve, Option.some_inj] at hd
    subst hd
    exact Int.fdiv_nonneg (by omega) (by norm_num)
  · induction l with
    | nil => intro nowMs i h _; cases h
    | cons a t ih =>
      intro nowMs i hmem hres
      unfold IncidentModel.resolveActive
      by_cases ha : a.resolved_at.isNone = true
      · rw [if_pos ha]
        rcases List.mem_cons.mp hmem with h | h
        · subst h
          rw [Option.isNone_iff_eq_none] at ha
          rw [ha] at hres
          cases hres
        · exact List.mem_cons_of_mem _ h
      · rw [if_neg ha]
        rcases List.mem_cons.mp hmem with h | h
        · subst h; exact List.mem_cons_self _ _
        · exact List.mem_cons_of_mem _ (ih nowMs i h hres)

/-- Witness for C6 on a concrete incident resolved 8.5 s after it started. -/
theorem C6_incident_resolution_witness :
    (IncidentModel.resolve sampleOpenIncident 9500).resolved_at = some 9500 ∧
    (IncidentModel.resolve sampleOpenIncident 9500).duration = some 8 ∧
    (0 : Int) ≤ 8 :=
  ⟨(C6_incident_resolution.1 sampleOpenIncident 9500).1,
   (C6_incident_resolution.1 sampleOpenIncident 9500).2,
   C6_incident_resolution.2.1 sampleOpenIncident 9500 (by decide) 8
     (C6_incident_resolution.1 sampleOpenIncident 9500).2⟩

/-- Claim C7: under policy `http_status_other_than` the base verdict is `down`
exactly when the status code is not in the configured allow-list (default
`[200]` when none is configured), with message
`HTTP <code> (expected <comma-separated list>)`, and `operational` otherwise;
with allow-list "200,201" a 201 response is operational and a 404 response is
down with message `HTTP 404 (expected 200, 201)`. -/
theorem C7_http_status_allow_list :
    (∀ (service : Service) (code : Nat) (body : String),
      service.alert_type = .http_status_other_than →
      (((HealthChecker.classifyPolicy service code body).1 = .down ↔
          (code : Int) ∉ HealthChecker.parseExpectedStatuses service.alert_http_statuses) ∧
        ((code : Int) ∉ HealthChecker.parseExpectedStatuses service.alert_http_statuses →
          (HealthChecker.classifyPolicy service code body).2 =
            some ("HTTP " ++ toString code ++ " (expected " ++
              String.intercalate ", "
                ((HealthChecker.parseExpectedStatuses service.alert_http_statuses).map toString) ++ ")")) ∧
        ((code : Int) ∈ HealthChecker.parseExpectedStatuses service.alert_http_statuses →
          HealthChecker.classifyPolicy service code body = (.operational, none)))) ∧
    HealthChecker.parseExpectedStatuses none = [200] ∧
    HealthChecker.parseExpectedStatuses (some "200,201") = [200, 201] ∧
    (HealthChecker.classifyPolicy svcOther 201 "").1 = .operational ∧
    HealthChecker.classifyPolicy svcOther 404 "" =
      (.down, some "HTTP 404 (expected 200, 201)") := by
  refine ⟨fun service code body hpol => ?_, by decide, by decide, by decide, by decide⟩
  simp only [HealthChecker.classifyPolicy, hpol]
  by_cases hmem : (code : Int) ∈ HealthChecker.parseExpectedStatuses service.alert_http_statuses
  · simp [hmem]
  · simp [hmem]

/-- Witness for C7: a 404 with allow-list "200,201" really classifies down via
the quantified part of the claim theorem. -/
theorem C7_http_status_allow_list_witness :
    (HealthChecker.classifyPolicy svcOther 404 "").1 = .down :=
  (C7_http_status_allow_list.1 svcOther 404 "" rfl).1.mpr (by decide)

/-- Claim C2 counterexample: under the default `unavailable` policy a received
response with status code 100 (below 200) is classified `down` by the code,
not `operational` as the claim states for status codes below 200. -/
theorem C2_counterexample :
    (HealthChecker.checkServiceHttp svcUnavailable
      (.response 100 "Continue" "") 50).status = .down ∧
    (HealthChecker.checkServiceHttp svcUnavailable
      (.response 100 "Continue" "") 50).status ≠ .operational := by
  decide

/-- Claim C2 (amended): under policy `unavailable`, a response with status in
[200,500) and elapsed time not exceeding 0.8 × timeout is `operational`; a
response with status ≥ 500, a response with status < 200, and every
no-response outcome (timeout, no response received, other network error) are
`down`. -/
theorem C2_unavailable_classification (service : Service) (elapsedMs : Nat)
    (hpol : service.alert_type = .unavailable) :
    (∀ (code : Nat) (text body : String),
      200 ≤ code → code < 500 → elapsedMs ≤ service.timeout * 800 →
      (HealthChecker.checkServiceHttp service (.response code text body)
        elapsedMs).status = .operational) ∧
    (∀ (code : Nat) (text body : String), 500 ≤ code →
      (HealthChecker.checkServiceHttp service (.response code text body)
        elapsedMs).status = .down) ∧
    (∀ (code : Nat) (text body : String), code < 200 →
      (HealthChecker.checkServiceHttp service (.response code text body)
        elapsedMs).status = .down) ∧
    (HealthChecker.checkServiceHttp service .timedOut elapsedMs).status = .down ∧
    (∀ message,
      (HealthChecker.checkServiceHttp service (.noResponse message)
        elapsedMs).status = .down) ∧
    (∀ message,
      (HealthChecker.checkServiceHttp service (.otherError message)
        elapsedMs).status = .down) := by
  refine ⟨fun code text body h1 h2 h3 => ?_, fun code text body h5 => ?_,
    fun code text body h0 => ?_, rfl, fun m => rfl, fun m => rfl⟩
  · have hns : ¬ (service.timeout * 800 < elapsedMs) := by omega
    simp [HealthChecker.checkServiceHttp, hpol, HealthChecker.validateStatus,
      HealthChecker.classifyPolicy, HealthChecker.applySlowOverlay, h1, h2, hns]
  · have hv : ¬ code < 500 := by omega
    simp [HealthChecker.checkServiceHttp, hpol, HealthChecker.validateStatus, hv]
  · have h2 : code < 500 := by omega
    have hno : ¬ 200 ≤ code := by omega
    simp [HealthChecker.checkServiceHttp, hpol, HealthChecker.validateStatus,
      HealthChecker.classifyPolicy, HealthChecker.applySlowOverlay, h2, hno]

/-- Witness for C2 (amended) at concrete inputs. -/
theorem C2_unavailable_classification_witness :
    (HealthChecker.checkServiceHttp svcUnavailable
      (.response 200 "OK" "") 50).status = .operational ∧
    (HealthChecker.checkServiceHttp svcUnavailable
      (.response 503 "Service Unavailable" "") 50).status = .down ∧
    (HealthChecker.checkServiceHttp svcUnavailable .timedOut 30000).status = .down :=
  ⟨(C2_unavailable_classification svcUnavailable 50 rfl).1 200 "OK" ""
      (by decide) (by decide) (by decide),
   (C2_unavailable_classification svcUnavailable 50 rfl).2.1 503
      "Service Unavailable" "" (by decide),
   (C2_unavailable_classification svcUnavailable 30000 rfl).2.2.2.1⟩

/-- Claim C8 counterexample: under policy `contains_keyword` (keyword
"error"), a received 500 response whose body does not contain the keyword is
classified `down` through the error path, where the claim states the verdict
is down exactly when the body contains the keyword (hence operational
here). -/
theorem C8_counterexample :
    (HealthChecker.checkServiceHttp svcContains
      (.response 500 "Internal Server Error" "all good") 10).status = .down ∧
    stringIncludes "all good" "error" = false := by
  decide

/-- Claim C8 (amended): for responses that pass status validation
(status < 500) and a configured non-empty keyword, the base verdict under
`contains_keyword` is down exactly when the body contains the keyword, and
under `not_contains_keyword` down exactly when the body does not contain it;
a 5xx response under either keyword policy is classified down through the
error path regardless of its body. -/
theorem C8_keyword_classification :
    (∀ (service : Service) (code : Nat) (body kw : String),
      service.alert_type = .contains_keyword →
      service.alert_keyword = some kw → kw ≠ "" →
      (HealthChecker.classifyPolicy service code body).1 =
        (if kw.data <:+: body.data then .down else .operational)) ∧
    (∀ (service : Service) (code : Nat) (body kw : String),
      service.alert_type = .not_contains_keyword →
      service.alert_keyword = some kw → kw ≠ "" →
      (HealthChecker.classifyPolicy service code body).1 =
        (if kw.data <:+: body.data then .operational else .down)) ∧
    (∀ (service : Service) (code : Nat) (text body : String) (elapsedMs : Nat),
      (service.alert_type = .contains_keyword ∨
        service.alert_type = .not_contains_keyword) →
      500 ≤ code →
      (HealthChecker.checkServiceHttp service (.response code text body)
        elapsedMs).status = .down) := by
  refine ⟨fun service code body kw hpol hkw hne => ?_,
    fun service code body kw hpol hkw hne => ?_,
    fun service code text body elapsedMs hpol h5 => ?_⟩
  · simp only [HealthChecker.classifyPolicy, hpol, hkw, Option.getD_some]
    by_cases hc : kw.data <:+: body.data
    · rw [if_pos ⟨hne, by simp [stringIncludes, hc]⟩, if_pos hc]
    · rw [if_neg (by rintro ⟨-, h⟩; simp [stringIncludes, hc] at h), if_neg hc]
  · simp only [HealthChecker.classifyPolicy, hpol, hkw, Option.getD_some]
    by_cases hc : kw.data <:+: body.data
    · rw [if_neg (by rintro ⟨-, h⟩; simp [stringIncludes, hc] at h), if_pos hc]
    · rw [if_pos ⟨hne, by simp [stringIncludes, hc]⟩, if_neg hc]
  · have hv : HealthChecker.validateStatus service.alert_type code = false := by
      rcases hpol with h | h <;> rw [h] <;> simp [HealthChecker.validateStatus] <;> omega
    simp only [HealthChecker.checkServiceHttp, hv]
    rw [if_neg (by simp)]
    rw [if_neg (by
      rintro ⟨h, -⟩
      rcases hpol with hp | hp <;> rw [hp] at h <;> cases h)]

/-- Witness for C8 (amended) at concrete inputs. -/
theorem C8_keyword_classification_witness :
    (HealthChecker.classifyPolicy svcContains 200 "fatal error occurred").1 = .down ∧
    (HealthChecker.classifyPolicy svcNotContains 200 "all fine").1 = .down ∧
    (HealthChecker.checkServiceHttp svcNotContains
      (.response 502 "Bad Gateway" "ok") 10).status = .down :=
  ⟨by
    rw [C8_keyword_classification.1 svcContains 200 "fatal error occurred" "error"
      rfl rfl (by decide)]
    decide,
   by
    rw [C8_keyword_classification.2.1 svcNotContains 200 "all fine" "ok"
      rfl rfl (by decide)]
    decide,
   C8_keyword_classification.2.2 svcNotContains 502 "Bad Gateway" "ok" 10
     (Or.inr rfl) (by decide)⟩

/-- Claim C9 counterexample: a trusted certificate expiring one hour from now
is not yet expired, yet the code reports it invalid (`days_remaining` floors
to 0 and the check requires `daysRemaining > 0`), contradicting
`valid = trusted AND not-yet-expired`. -/
theorem C9_counterexample :
    (SslChecker.check true 3600000 0 none none).valid = false ∧
    (0 : Int) < 3600000 := by
  decide

/-- Claim C9 (amended): the TLS validator reports
`valid = trusted AND days-remaining > 0` — that is, trusted and with at least
one full day (86400 s) of validity left, so a trusted certificate expiring in
under a day is reported invalid; days-remaining is
floor((expiry − now) / 86400 s); the issuer label is built from the
organisation and common-name fields joined by " - ", falling back to
"Unknown" when both are absent or empty. -/
theorem C9_ssl_validator (authorized : Bool) (validToMs nowMs : Int)
    (issuerO issuerCN : Option String) :
    ((SslChecker.check authorized validToMs nowMs issuerO issuerCN).valid = true ↔
      authorized = true ∧ 86400000 ≤ validToMs - nowMs) ∧
    (SslChecker.check authorized validToMs nowMs issuerO issuerCN).days_remaining =
      some ((validToMs - nowMs).fdiv 86400000) ∧
    ((issuerO = none ∨ issuerO = some "") → (issuerCN = none ∨ issuerCN = some "") →
      (SslChecker.check authorized validToMs nowMs issuerO issuerCN).issuer =
        some "Unknown") ∧
    (∀ o, issuerO = some o → o ≠ "" → (issuerCN = none ∨ issuerCN = some "") →
      (SslChecker.check authorized validToMs nowMs issuerO issuerCN).issuer =
        some o) ∧
    (∀ cn, (issuerO = none ∨ issuerO = some "") → issuerCN = some cn → cn ≠ "" →
      (SslChecker.check authorized validToMs nowMs issuerO issuerCN).issuer =
        some cn) ∧
    (∀ o cn, issuerO = some o → o ≠ "" → issuerCN = some cn → cn ≠ "" →
      (SslChecker.check authorized validToMs nowMs issuerO issuerCN).issuer =
        some (o ++ " - " ++ cn)) := by
  refine ⟨?_, rfl, ?_, ?_, ?_, ?_⟩
  · simp only [SslChecker.check, Bool.and_eq_true, decide_eq_true_eq]
    rw [Int.fdiv_eq_ediv _ (by norm_num)]
    constructor
    · rintro ⟨h1, h2⟩; exact ⟨h1, by omega⟩
    · rintro ⟨h1, h2⟩; exact ⟨h1, by omega⟩
  · rintro (ho | ho) (hcn | hcn) <;>
      simp [SslChecker.check, ho, hcn, String.intercalate]
  · rintro o ho hne (hcn | hcn) <;>
      simp [SslChecker.check, ho, hcn, hne, String.intercalate,
        show ∀ acc s : String, String.intercalate.go acc s [] = acc from fun _ _ => rfl]
  · rintro cn (ho | ho) hcn hne <;>
      simp [SslChecker.check, ho, hcn, hne, String.intercalate,
        show ∀ acc s : String, String.intercalate.go acc s [] = acc from fun _ _ => rfl]
  · intro o cn ho hone hcn hcnne
    have hjoin : String.intercalate " - " [o, cn] = o ++ " - " ++ cn := rfl
    have hnonempty : o ++ " - " ++ cn ≠ "" := by
      intro h
      have := congrArg String.data h
      simp [String.data_append] at this
    simp only [SslChecker.check, ho, hcn]
    rw [if_neg hone, if_neg hcnne]
    simp only [List.singleton_append, hjoin]
    rw [if_neg hnonempty]

/-- Witness for C9 (amended) at a concrete certificate. -/
theorem C9_ssl_validator_witness :
    (SslChecker.check true 864000000 0 (some "Org") (some "CN")).valid = true ∧
    (SslChecker.check true 864000000 0 (some "Org") (some "CN")).days_remaining =
      some 10 ∧
    (SslChecker.check true 864000000 0 (some "Org") (some "CN")).issuer =
      some "Org - CN" :=
  ⟨(C9_ssl_validator true 864000000 0 (some "Org") (some "CN")).1.mpr
      ⟨rfl, by decide⟩,
   by rw [(C9_ssl_validator true 864000000 0 (some "Org") (some "CN")).2.1]; decide,
   (C9_ssl_validator true 864000000 0 (some "Org") (some "CN")).2.2.2.2.2
     "Org" "CN" rfl (by decide) rfl (by decide)⟩

/-- On a list sorted by ascending start time, the first matching schedule has
minimal start time among all matching schedules. -/
theorem getCurrentOnCall_first_match (now : Nat) :
    ∀ schedules : List OnCallSchedule,
      List.Pairwise (fun a b => a.start_time ≤ b.start_time) schedules →
      ∀ s ∈ schedules, OnCallScheduleModel.scheduleMatches s now = true →
      ∃ r, OnCallScheduleModel.getCurrentOnCall schedules now = some r ∧
        OnCallScheduleModel.scheduleMatches r now = true ∧
        r.start_time ≤ s.start_time := by
  intro schedules
  induction schedules with
  | nil => intro _ s hmem _; cases hmem
  | cons a t ih =>
    intro hsorted s hmem hmatch
    rcases List.pairwise_cons.mp hsorted with ⟨hle, hs⟩
    by_cases ha : OnCallScheduleModel.scheduleMatches a now = true
    · refine ⟨a, ?_, ha, ?_⟩
      · unfold OnCallScheduleModel.getCurrentOnCall
        exact List.find?_cons_of_pos _ ha
      · rcases List.mem_cons.mp hmem with h | h
        · rw [h]
        · exact hle s h
    · rcases List.mem_cons.mp hmem with h | h
      · rw [h] at hmatch; exact absurd hmatch ha
      · obtain ⟨r, hr, hrm, hrs⟩ := ih hs s h hmatch
        refine ⟨r, ?_, hrm, hrs⟩
        unfold OnCallScheduleModel.getCurrentOnCall at hr ⊢
        rw [List.find?_cons_of_neg _ (by simpa using ha)]
        exact hr

/-- Claim C4: the on-call resolver returns the first schedule of the
start-sorted list whose window matches `now` (so on two overlapping windows
it returns the one with the earlier start time), returns null when nothing
matches, and the matching rule per recurrence is: `none` — absolute
`start ≤ now ≤ end`; `daily` — minutes-since-midnight UTC comparison with
wraparound when the window crosses midnight; `weekly` —
`day-of-week × 1440 + minutes-of-day` UTC comparison with wraparound across
the week boundary. -/
theorem C4_on_call_resolution (schedules : List OnCallSchedule) (now : Nat) :
    (OnCallScheduleModel.getCurrentOnCall schedules now = none ↔
      ∀ s ∈ schedules, OnCallScheduleModel.scheduleMatches s now = false) ∧
    (∀ r, OnCallScheduleModel.getCurrentOnCall schedules now = some r →
      r ∈ schedules ∧ OnCallScheduleModel.scheduleMatches r now = true) ∧
    (List.Pairwise (fun a b => a.start_time ≤ b.start_time) schedules →
      ∀ s ∈ schedules, OnCallScheduleModel.scheduleMatches s now = true →
      ∃ r, OnCallScheduleModel.getCurrentOnCall schedules now = some r ∧
        OnCallScheduleModel.scheduleMatches r now = true ∧
        r.start_time ≤ s.start_time) ∧
    (∀ s : OnCallSchedule,
      (s.recurrence = .none →
        (OnCallScheduleModel.scheduleMatches s now = true ↔
          s.start_time ≤ now ∧ now ≤ s.end_time)) ∧
      (s.recurrence = .daily →
        (OnCallScheduleModel.scheduleMatches s now = true ↔
          (OnCallScheduleModel.minutesOfDay s.start_time ≤
              OnCallScheduleModel.minutesOfDay s.end_time ∧
            OnCallScheduleModel.minutesOfDay s.start_time ≤
              OnCallScheduleModel.minutesOfDay now ∧
            OnCallScheduleModel.minutesOfDay now ≤
              OnCallScheduleModel.minutesOfDay s.end_time) ∨
          (OnCallScheduleModel.minutesOfDay s.end_time <
              OnCallScheduleModel.minutesOfDay s.start_time ∧
            (OnCallScheduleModel.minutesOfDay s.start_time ≤
                OnCallScheduleModel.minutesOfDay now ∨
              OnCallScheduleModel.minutesOfDay now ≤
                OnCallScheduleModel.minutesOfDay s.end_time)))) ∧
      (s.recurrence = .weekly →
        (OnCallScheduleModel.scheduleMatches s now = true ↔
          (OnCallScheduleModel.weekMinutes s.start_time ≤
              OnCallScheduleModel.weekMinutes s.end_time ∧
            OnCallScheduleModel.weekMinutes s.start_time ≤
              OnCallScheduleModel.weekMinutes now ∧
            OnCallScheduleModel.weekMinutes now ≤
              OnCallScheduleModel.weekMinutes s.end_time) ∨
          (OnCallScheduleModel.weekMinutes s.end_time <
              OnCallScheduleModel.weekMinutes s.start_time ∧
            (OnCallScheduleModel.weekMinutes s.start_time ≤
                OnCallScheduleModel.weekMinutes now ∨
              OnCallScheduleModel.weekMinutes now ≤
                OnCallScheduleModel.weekMinutes s.end_time))))) := by
  refine ⟨?_, fun r hr => ?_, getCurrentOnCall_first_match now schedules,
    fun s => ⟨?_, ?_, ?_⟩⟩
  · unfold OnCallScheduleModel.getCurrentOnCall
    rw [List.find?_eq_none]
    constructor
    · intro h s hmem
      simpa using h s hmem
    · intro h s hmem
      simp [h s hmem]
  · unfold OnCallScheduleModel.getCurrentOnCall at hr
    have h2 := List.find?_some hr
    exact ⟨List.mem_of_find?_eq_some hr, h2⟩
  · intro hrec
    simp only [OnCallScheduleModel.scheduleMatches, hrec]
    simp only [decide_eq_true_eq]
  · intro hrec
    simp only [OnCallScheduleModel.scheduleMatches, hrec]
    split_ifs with h <;> simp only [decide_eq_true_eq] <;> omega
  · intro hrec
    simp only [OnCallScheduleModel.scheduleMatches, hrec]
    split_ifs with h <;> simp only [decide_eq_true_eq] <;> omega

/-- Witness for C4: two overlapping weekly Monday windows resolve to the one
with the earlier start, and a Saturday instant matches neither. -/
theorem C4_on_call_resolution_witness :
    (∃ r, OnCallScheduleModel.getCurrentOnCall [schedMonA, schedMonB] monNoon = some r ∧
      OnCallScheduleModel.scheduleMatches r monNoon = true ∧
      r.start_time ≤ schedMonB.start_time) ∧
    OnCallScheduleModel.getCurrentOnCall [schedMonA, schedMonB] satNoon = none :=
  ⟨(C4_on_call_resolution [schedMonA, schedMonB] monNoon).2.2.1
      (by decide) schedMonB (by decide) (by decide),
   (C4_on_call_resolution [schedMonA, schedMonB] satNoon).1.mpr (by decide)⟩

/-- Status of the domain-verification phase as one conditional. -/
theorem applyDomainCheck_status (service : Service) (dr : DomainCheckResult)
    (r : HealthCheckResult) :
    (HealthChecker.applyDomainCheck service dr r).status =
      if service.verify_domain = true ∧ dr.valid = false then .down else r.status := by
  unfold HealthChecker.applyDomainCheck
  by_cases h1 : service.verify_domain = true <;> by_cases h2 : dr.valid = false <;>
    simp [h1, h2]

/-- Error message of the domain-verification phase: appended on failure,
unchanged otherwise. -/
theorem applyDomainCheck_message (service : Service) (dr : DomainCheckResult)
    (r : HealthCheckResult) :
    (service.verify_domain = true ∧ dr.valid = false ∧
      (HealthChecker.applyDomainCheck service dr r).error_message =
        some (appendMessage r.error_message
          ("Domain verification failed: " ++ dr.error.getD "undefined"))) ∨
    (¬(service.verify_domain = true ∧ dr.valid = false) ∧
      (HealthChecker.applyDomainCheck service dr r).error_message =
        r.error_message) := by
  unfold HealthChecker.applyDomainCheck
  by_cases h1 : service.verify_domain = true <;> by_cases h2 : dr.valid = false <;>
    simp [h1, h2]

/-- Status of the SSL-verification phase as one conditional. -/
theorem applySslCheck_status (service : Service) (sr : SslCheckResult)
    (r : HealthCheckResult) :
    (HealthChecker.applySslCheck service sr r).status =
      if service.verify_ssl = true ∧ "https://".data.isPrefixOf service.url.data = true then
        if sr.valid = false then .down
        else
          match sr.days_remaining with
          | some d =>
            if d ≤ (if service.ssl_expiry_threshold = 0 then 30
                else service.ssl_expiry_threshold) then
              if r.status = .operational then .degraded else r.status
            else r.status
          | none => r.status
      else r.status := by
  unfold HealthChecker.applySslCheck
  by_cases h1 : service.verify_ssl = true ∧
      "https://".data.isPrefixOf service.url.data = true
  · by_cases h2 : sr.valid = false
    · simp [h1, h2]
    · cases hd : sr.days_remaining with
      | none => simp [h1, h2, hd]
      | some d =>
        by_cases h3 : d ≤ (if service.ssl_expiry_threshold = 0 then 30
            else service.ssl_expiry_threshold)
        · simp [h1, h2, hd, h3]
        · simp [h1, h2, hd, h3]
  · simp only [if_neg h1]

/-- Error message of the SSL-verification phase: unchanged or appended-to. -/
theorem applySslCheck_message (service : Service) (sr : SslCheckResult)
    (r : HealthCheckResult) :
    (HealthChecker.applySslCheck service sr r).error_message = r.error_message ∨
    ∃ x, (HealthChecker.applySslCheck service sr r).error_message =
      some (appendMessage r.error_message x) := by
  unfold HealthChecker.applySslCheck
  by_cases h1 : service.verify_ssl = true ∧
      "https://".data.isPrefixOf service.url.data = true
  · by_cases h2 : sr.valid = false
    · exact Or.inr ⟨"SSL: " ++ sr.error.getD "SSL certificate invalid",
        by simp [h1, h2]⟩
    · cases hd : sr.days_remaining with
      | none => exact Or.inl (by simp [h1, h2, hd])
      | some d =>
        by_cases h3 : d ≤ (if service.ssl_expiry_threshold = 0 then 30
            else service.ssl_expiry_threshold)
        · exact Or.inr ⟨"SSL certificate expires in " ++ toString d ++ " days",
            by simp [h1, h2, hd, h3]⟩
        · exact Or.inl (by simp [h1, h2, hd, h3])
  · exact Or.inl (by simp only [if_neg h1])

/-- The SSL phase on an invalid certificate: down, with the SSL message
appended. -/
theorem applySslCheck_invalid (service : Service) (sr : SslCheckResult)
    (r : HealthCheckResult) (h1 : service.verify_ssl = true)
    (h2 : "https://".data.isPrefixOf service.url.data = true)
    (hv : sr.valid = false) :
    (HealthChecker.applySslCheck service sr r).status = .down ∧
    (HealthChecker.applySslCheck service sr r).error_message =
      some (appendMessage r.error_message
        ("SSL: " ++ sr.error.getD "SSL certificate invalid")) := by
  unfold HealthChecker.applySslCheck
  simp [h1, h2, hv]

/-- The SSL phase on a valid certificate at or below the expiry threshold:
operational downgrades to degraded, other statuses unchanged, and the expiry
warning is appended. -/
theorem applySslCheck_expiry (service : Service) (sr : SslCheckResult)
    (r : HealthCheckResult) (d : Int) (h1 : service.verify_ssl = true)
    (h2 : "https://".data.isPrefixOf service.url.data = true)
    (hv : sr.valid = true) (hd : sr.days_remaining = some d)
    (hth : d ≤ (if service.ssl_expiry_threshold = 0 then 30
        else service.ssl_expiry_threshold)) :
    (HealthChecker.applySslCheck service sr r).status =
      (if r.status = .operational then .degraded else r.status) ∧
    (HealthChecker.applySslCheck service sr r).error_message =
      some (appendMessage r.error_message
        ("SSL certificate expires in " ++ toString d ++ " days")) := by
  unfold HealthChecker.applySslCheck
  simp [h1, h2, hv, hd, hth]

/-- The SSL phase never revives a down verdict. -/
theorem applySslCheck_down (service : Service) (sr : SslCheckResult)
    (r : HealthCheckResult) (h : r.status = .down) :
    (HealthChecker.applySslCheck service sr r).status = .down := by
  rw [applySslCheck_status]
  cases hd : sr.days_remaining <;> split_ifs <;> simp_all

/-- The full overlay never revives a down verdict. -/
theorem performSslDomainChecks_down (service : Service) (dr : DomainCheckResult)
    (sr : SslCheckResult) (r : HealthCheckResult) (h : r.status = .down) :
    (HealthChecker.performSslDomainChecks service dr sr r).status = .down := by
  unfold HealthChecker.performSslDomainChecks
  apply applySslCheck_down
  rw [applyDomainCheck_status]
  split_ifs <;> simp_all

/-- A message is a prefix of its `; `-joined extension. -/
theorem appendMessage_startsWith (m msg : String) :
    m.data <+: (appendMessage (some m) msg).data := by
  show m.data <+: (m ++ "; " ++ msg).data
  rw [String.data_append, String.data_append, List.append_assoc]
  exact List.prefix_append _ _

/-- The appended text occurs inside the `; `-joined message. -/
theorem appendMessage_containsMsg (old : Option String) (msg : String) :
    msg.data <:+: (appendMessage old msg).data := by
  cases old with
  | none => exact List.infix_refl _
  | some m =>
    show msg.data <:+: (m ++ "; " ++ msg).data
    rw [String.data_append]
    exact (List.suffix_append _ _).isInfix

/-- The domain phase only ever extends an existing error message. -/
theorem applyDomainCheck_extends (service : Service) (dr : DomainCheckResult)
    (r : HealthCheckResult) (m : String) (hm : r.error_message = some m) :
    ∃ m1, (HealthChecker.applyDomainCheck service dr r).error_message = some m1 ∧
      m.data <+: m1.data := by
  rcases applyDomainCheck_message service dr r with ⟨-, -, hmsg⟩ | ⟨-, hmsg⟩
  · rw [hm] at hmsg
    exact ⟨_, hmsg, appendMessage_startsWith _ _⟩
  · exact ⟨m, by rw [hmsg, hm], List.prefix_refl _⟩

/-- The SSL phase only ever extends an existing error message. -/
theorem applySslCheck_extends (service : Service) (sr : SslCheckResult)
    (r : HealthCheckResult) (m : String) (hm : r.error_message = some m) :
    ∃ m1, (HealthChecker.applySslCheck service sr r).error_message = some m1 ∧
      m.data <+: m1.data := by
  rcases applySslCheck_message service sr r with hmsg | ⟨x, hmsg⟩
  · exact ⟨m, by rw [hmsg, hm], List.prefix_refl _⟩
  · rw [hm] at hmsg
    exact ⟨_, hmsg, appendMessage_startsWith _ _⟩

/-- The base policy verdict is never `degraded`. -/
theorem classifyPolicy_ne_degraded (service : Service) (code : Nat) (body : String) :
    (HealthChecker.classifyPolicy service code body).1 ≠ .degraded := by
  unfold HealthChecker.classifyPolicy
  cases h : service.alert_type <;> dsimp only <;> split_ifs <;> simp

/-- Claim C3: the TLS/DNS overlay forces `down` on DNS failure (appending
`Domain verification failed: <reason>`), forces `down` on an invalid
certificate (appending `SSL: <reason>`), downgrades an `operational` result
to `degraded` for a valid certificate within the expiry threshold (appending
the expiry warning) while never changing a `down` result; appended messages
join any existing message with `; ` rather than replacing it; and across the
whole checker, `degraded` is only ever produced from a would-be `operational`
base verdict, never from `down`. -/
theorem C3_tls_dns_overlay :
    (∀ (service : Service) (dr : DomainCheckResult) (sr : SslCheckResult)
        (r : HealthCheckResult),
      (r.status = .down →
        (HealthChecker.performSslDomainChecks service dr sr r).status = .down) ∧
      ((HealthChecker.performSslDomainChecks service dr sr r).status = .degraded →
        r.status ≠ .down) ∧
      (service.verify_domain = true → dr.valid = false →
        (HealthChecker.performSslDomainChecks service dr sr r).status = .down ∧
        ∃ m, (HealthChecker.performSslDomainChecks service dr sr r).error_message =
            some m ∧
          ("Domain verification failed: " ++ dr.error.getD "undefined").data <:+:
            m.data) ∧
      (service.verify_ssl = true →
        "https://".data.isPrefixOf service.url.data = true → sr.valid = false →
        (HealthChecker.performSslDomainChecks service dr sr r).status = .down ∧
        ∃ m, (HealthChecker.performSslDomainChecks service dr sr r).error_message =
            some m ∧
          ("SSL: " ++ sr.error.getD "SSL certificate invalid").data <:+: m.data) ∧
      (∀ d : Int, service.verify_ssl = true →
        "https://".data.isPrefixOf service.url.data = true → sr.valid = true →
        sr.days_remaining = some d →
        d ≤ (if service.ssl_expiry_threshold = 0 then 30
            else service.ssl_expiry_threshold) →
        (service.verify_domain = false ∨ dr.valid = true) →
        r.status = .operational →
        (HealthChecker.performSslDomainChecks service dr sr r).status = .degraded ∧
        ∃ m, (HealthChecker.performSslDomainChecks service dr sr r).error_message =
            some m ∧
          ("SSL certificate expires in " ++ toString d ++ " days").data <:+: m.data) ∧
      (∀ m, r.error_message = some m →
        ∃ m2, (HealthChecker.performSslDomainChecks service dr sr r).error_message =
            some m2 ∧
          m.data <+: m2.data)) ∧
    (∀ (service : Service) (outcome : HttpOutcome) (elapsedMs : Nat)
        (dr : DomainCheckResult) (sr : SslCheckResult),
      (HealthChecker.checkService service outcome elapsedMs dr sr).status = .degraded →
      ∃ code text body, outcome = .response code text body ∧
        (HealthChecker.classifyPolicy service code body).1 = .operational) := by
  constructor
  · intro service dr sr r
    refine ⟨performSslDomainChecks_down service dr sr r, ?_, ?_, ?_, ?_, ?_⟩
    · intro hdeg hdn
      have h := performSslDomainChecks_down service dr sr r hdn
      rw [h] at hdeg
      cases hdeg
    · intro hvd hdv
      have hst1 : (HealthChecker.applyDomainCheck service dr r).status = .down := by
        rw [applyDomainCheck_status, if_pos ⟨hvd, hdv⟩]
      constructor
      · exact applySslCheck_down service sr _ hst1
      · rcases applyDomainCheck_message service dr r with ⟨-, -, hmsg⟩ | ⟨hc, -⟩
        · have hinf : ("Domain verification failed: " ++ dr.error.getD "undefined").data <:+:
              (appendMessage r.error_message
                ("Domain verification failed: " ++ dr.error.getD "undefined")).data :=
            appendMessage_containsMsg _ _
          rcases applySslCheck_extends service sr _ _ hmsg with ⟨m2, hm2, hpre⟩
          exact ⟨m2, hm2, hinf.trans hpre.isInfix⟩
        · exact absurd ⟨hvd, hdv⟩ hc
    · intro hssl hhttps hinv
      have h := applySslCheck_invalid service sr
        (HealthChecker.applyDomainCheck service dr r) hssl hhttps hinv
      refine ⟨h.1, ⟨_, h.2, ?_⟩⟩
      exact appendMessage_containsMsg _ _
    · intro d hssl hhttps hv hd hth hdomok hop
      have hst1 : (HealthChecker.applyDomainCheck service dr r).status = .operational := by
        rw [applyDomainCheck_status, if_neg ?_, hop]
        rcases hdomok with h | h <;> simp [h]
      have h := applySslCheck_expiry service sr
        (HealthChecker.applyDomainCheck service dr r) d hssl hhttps hv hd hth
      refine ⟨?_, ⟨_, h.2, appendMessage_containsMsg _ _⟩⟩
      show (HealthChecker.applySslCheck service sr
        (HealthChecker.applyDomainCheck service dr r)).status = .degraded
      rw [h.1, if_pos hst1]
    · intro m hm
      rcases applyDomainCheck_extends service dr r m hm with ⟨m1, hm1, hp1⟩
      rcases applySslCheck_extends service sr _ m1 hm1 with ⟨m2, hm2, hp2⟩
      exact ⟨m2, hm2, hp1.trans hp2⟩
  · intro service outcome elapsedMs dr sr hdeg
    cases outcome with
    | response code text body =>
      refine ⟨code, text, body, rfl, ?_⟩
      by_cases hv : HealthChecker.validateStatus service.alert_type code = true
      · have hstat : (HealthChecker.checkServiceHttp service
            (.response code text body) elapsedMs).status =
            HealthChecker.applySlowOverlay service elapsedMs
              (HealthChecker.classifyPolicy service code body).1 := by
          simp [HealthChecker.checkServiceHttp, hv]
        cases hbase : (HealthChecker.classifyPolicy service code body).1 with
        | operational => rfl
        | degraded => exact absurd hbase (classifyPolicy_ne_degraded service code body)
        | down =>
          exfalso
          have hR : (HealthChecker.checkServiceHttp service
              (.response code text body) elapsedMs).status = .down := by
            rw [hstat, hbase]
            simp [HealthChecker.applySlowOverlay]
          have h := performSslDomainChecks_down service dr sr _ hR
          unfold HealthChecker.checkService at hdeg
          rw [h] at hdeg
          cases hdeg
      · by_cases h2 : service.alert_type = .http_status_other_than ∧
            (code : Int) ∈ HealthChecker.parseExpectedStatuses service.alert_http_statuses
        · exfalso
          apply hv
          rw [h2.1]
          rfl
        · exfalso
          have hR : (HealthChecker.checkServiceHttp service
              (.response code text body) elapsedMs).status = .down := by
            simp only [HealthChecker.checkServiceHttp, if_neg hv, if_neg h2]
          have h := performSslDomainChecks_down service dr sr _ hR
          unfold HealthChecker.checkService at hdeg
          rw [h] at hdeg
          cases hdeg
    | timedOut =>
      exfalso
      have h := performSslDomainChecks_down service dr sr
        (HealthChecker.checkServiceHttp service .timedOut elapsedMs) rfl
      unfold HealthChecker.checkService at hdeg
      rw [h] at hdeg
      cases hdeg
    | noResponse message =>
      exfalso
      have h := performSslDomainChecks_down service dr sr
        (HealthChecker.checkServiceHttp service (.noResponse message) elapsedMs) rfl
      unfold HealthChecker.checkService at hdeg
      rw [h] at hdeg
      cases hdeg
    | otherError message =>
      exfalso
      have h := performSslDomainChecks_down service dr sr
        (HealthChecker.checkServiceHttp service (.otherError message) elapsedMs) rfl
      unfold HealthChecker.checkService at hdeg
      rw [h] at hdeg
      cases hdeg

/-- Witness for C3: on the HTTPS target with both checks enabled, a valid
certificate with 10 days remaining downgrades an operational result to
degraded, and a DNS failure forces down. -/
theorem C3_tls_dns_overlay_witness :
    (HealthChecker.performSslDomainChecks svcTls drOk srGood10 rUp).status =
      .degraded ∧
    (HealthChecker.performSslDomainChecks svcTls drFail srGood10 rUp).status =
      .down :=
  ⟨((C3_tls_dns_overlay.1 svcTls drOk srGood10 rUp).2.2.2.2.1 10 rfl (by decide)
      rfl rfl (by decide) (Or.inr rfl) rfl).1,
   ((C3_tls_dns_overlay.1 svcTls drFail srGood10 rUp).2.2.1 rfl rfl).1⟩

/-- round3 fixes integers. -/
theorem round3_intCast (n : ℤ) : IncidentModel.round3 (n : ℚ) = n := by
  unfold IncidentModel.round3
  rw [show ((n : ℚ) * 1000) = ((n * 1000 : ℤ) : ℚ) by push_cast; ring, round_intCast]
  push_cast
  field_simp

/-- round3 is monotone. -/
theorem round3_le_round3 {a b : ℚ} (h : a ≤ b) :
    IncidentModel.round3 a ≤ IncidentModel.round3 b := by
  unfold IncidentModel.round3
  have hle : round (a * 1000) ≤ round (b * 1000) := by
    rw [round_eq, round_eq]
    exact Int.floor_le_floor (by linarith)
  have h2 : ((round (a * 1000) : ℤ) : ℚ) ≤ ((round (b * 1000) : ℤ) : ℚ) := by
    exact_mod_cast hle
  exact (div_le_div_iff_of_pos_right (by norm_num)).mpr h2

/-- Clamping to [0,100] commutes with round3 (0 and 100 are exact
thousandths). -/
theorem round3_clamp (x : ℚ) :
    max 0 (min 100 (IncidentModel.round3 x)) =
      IncidentModel.round3 (max 0 (min 100 x)) := by
  have hz : IncidentModel.round3 (0 : ℚ) = 0 := by simpa using round3_intCast 0
  have hh : IncidentModel.round3 (100 : ℚ) = 100 := by simpa using round3_intCast 100
  rcases le_total x 0 with h0 | h0
  · have hr : IncidentModel.round3 x ≤ 0 := by
      have := round3_le_round3 h0
      rwa [hz] at this
    rw [min_eq_right (h0.trans (by norm_num)), max_eq_left h0, hz,
      min_eq_right (hr.trans (by norm_num)), max_eq_left hr]
  · rcases le_total x 100 with h100 | h100
    · have hr0 : 0 ≤ IncidentModel.round3 x := by
        have := round3_le_round3 h0
        rwa [hz] at this
      have hr100 : IncidentModel.round3 x ≤ 100 := by
        have := round3_le_round3 h100
        rwa [hh] at this
      rw [min_eq_right h100, max_eq_right h0, min_eq_right hr100, max_eq_right hr0]
    · have hr : 100 ≤ IncidentModel.round3 x := by
        have := round3_le_round3 h100
        rwa [hh] at this
      rw [min_eq_left h100, min_eq_left hr]
      norm_num [hh]

/-- Claim C5: the aggregated uptime percentage equals
clamp(0,100, (1 − totalDowntimeSeconds / totalMonitoredSeconds) × 100)
rounded to 3 decimal places, where the total downtime includes the live
duration of any open incident and the denominator is wall-clock seconds since
target creation; it is 100 when that denominator is not positive; and it
always lies within [0,100] whatever the incident history. -/
theorem C5_uptime_percentage (createdAtMs nowMs : Int) (incidents : List Incident) :
    (0 ≤ IncidentModel.uptimePercentage createdAtMs nowMs incidents ∧
      IncidentModel.uptimePercentage createdAtMs nowMs incidents ≤ 100) ∧
    ((nowMs - createdAtMs).fdiv 1000 ≤ 0 →
      IncidentModel.uptimePercentage createdAtMs nowMs incidents = 100) ∧
    IncidentModel.uptimePercentage createdAtMs nowMs incidents =
      IncidentModel.specUptimePercentage createdAtMs nowMs incidents := by
  by_cases hm : 0 < (nowMs - createdAtMs).fdiv 1000
  · refine ⟨⟨?_, ?_⟩, fun hle => absurd hm (by omega), ?_⟩
    · simp only [IncidentModel.uptimePercentage, if_pos hm]
      exact le_max_left _ _
    · simp only [IncidentModel.uptimePercentage, if_pos hm]
      exact max_le (by norm_num) (min_le_left _ _)
    · simp only [IncidentModel.uptimePercentage, IncidentModel.specUptimePercentage,
        if_pos hm]
      exact round3_clamp _
  · refine ⟨⟨?_, ?_⟩, fun _ => ?_, ?_⟩ <;>
      simp only [IncidentModel.uptimePercentage, IncidentModel.specUptimePercentage,
        if_neg hm] <;>
      norm_num

/-- Witness for C5: an empty history at creation time gives 100 %, and a run
with one open incident stays within bounds. -/
theorem C5_uptime_percentage_witness :
    IncidentModel.uptimePercentage 0 0 [] = 100 ∧
    (0 ≤ IncidentModel.uptimePercentage 1000 11000 [sampleOpenIncident] ∧
      IncidentModel.uptimePercentage 1000 11000 [sampleOpenIncident] ≤ 100) :=
  ⟨(C5_uptime_percentage 0 0 []).2.1 (by decide),
   (C5_uptime_percentage 1000 11000 [sampleOpenIncident]).1⟩

/-- A check status maps to the `down` service status exactly when it is
`down`. -/
theorem toService_down_iff (c : CheckStatus) : c.toService = .down ↔ c = .down := by
  cases c <;> simp [CheckStatus.toService]

/-- Prepending an open incident increments the open count. -/
theorem openIncidentCount_cons_open (i : Incident) (l : List Incident)
    (h : i.resolved_at = none) :
    MonitoringService.openIncidentCount (i :: l) =
      MonitoringService.openIncidentCount l + 1 := by
  unfold MonitoringService.openIncidentCount
  simp [List.filter_cons, h]

/-- Resolving the active incident decrements the open count. -/
theorem openIncidentCount_resolveActive (l : List Incident) (nowMs : Int) :
    MonitoringService.openIncidentCount (IncidentModel.resolveActive l nowMs) =
      MonitoringService.openIncidentCount l - 1 := by
  induction l with
  | nil => rfl
  | cons a t ih =>
    unfold IncidentModel.resolveActive
    by_cases ha : a.resolved_at.isNone = true
    · rw [if_pos ha]
      unfold MonitoringService.openIncidentCount
      simp [List.filter_cons, IncidentModel.resolve, ha]
    · rw [if_neg ha]
      unfold MonitoringService.openIncidentCount at ih ⊢
      simp [List.filter_cons, ha, ih]

/-- No active incident exists exactly when the open count is zero. -/
theorem getActive_eq_none_iff (l : List Incident) :
    IncidentModel.getActiveByServiceId l = none ↔
      MonitoringService.openIncidentCount l = 0 := by
  unfold IncidentModel.getActiveByServiceId MonitoringService.openIncidentCount
  rw [List.find?_eq_none, List.length_eq_zero, List.filter_eq_nil_iff]

/-- One tick of the incident state machine, from a state satisfying the
invariant: events and resulting open count. -/
theorem tick_spec (serviceId : Nat) (s : MonitoringService.TargetState)
    (r : HealthCheckResult) (nowMs : Int) (ok : Bool)
    (hinv : MonitoringService.statusInvariant s) :
    ((MonitoringService.tick serviceId s r nowMs ok).2.incidentCreated = true ↔
      s.status ≠ .down ∧ r.status = .down) ∧
    ((MonitoringService.tick serviceId s r nowMs ok).2.downNotificationAttempted = true ↔
      s.status ≠ .down ∧ r.status = .down) ∧
    ((MonitoringService.tick serviceId s r nowMs ok).2.recoveredNotificationAttempted = true ↔
      s.status = .down ∧ r.status ≠ .down) ∧
    MonitoringService.openIncidentCount
        (MonitoringService.tick serviceId s r nowMs ok).1.incidents =
      (if r.status = .down then 1 else 0) ∧
    (r.status.toService = s.status →
      (MonitoringService.tick serviceId s r nowMs ok).1.incidents = s.incidents ∧
      (MonitoringService.tick serviceId s r nowMs ok).2 = ⟨false, false, false⟩) := by
  unfold MonitoringService.statusInvariant at hinv
  by_cases hA : s.status ≠ .down ∧ r.status.toService = .down
  · have hB : ¬(s.status = .down ∧ r.status.toService ≠ .down) := by
      rintro ⟨h1, -⟩; exact hA.1 h1
    have hr : r.status = .down := (toService_down_iff r.status).mp hA.2
    have hcnt : MonitoringService.openIncidentCount s.incidents = 0 := by
      rw [hinv, if_neg hA.1]
    simp only [MonitoringService.tick, MonitoringService.handleStatusChange,
      if_pos hA, if_neg hB]
    refine ⟨by simp [hA.1, hr], by simp [hA.1, hr], by simp [hA.1], ?_, ?_⟩
    · rw [openIncidentCount_cons_open _ _ rfl, hcnt, if_pos hr]
    · intro h
      exact absurd (h ▸ hA.2) hA.1
  · by_cases hB : s.status = .down ∧ r.status.toService ≠ .down
    · have hr : r.status ≠ .down := fun h =>
        hB.2 ((toService_down_iff r.status).mpr h)
      have hcnt : MonitoringService.openIncidentCount s.incidents = 1 := by
        rw [hinv, if_pos hB.1]
      have hne : IncidentModel.getActiveByServiceId s.incidents ≠ none := by
        intro hno
        rw [getActive_eq_none_iff] at hno
        omega
      cases hga : IncidentModel.getActiveByServiceId s.incidents with
      | none => exact absurd hga hne
      | some i =>
        simp only [MonitoringService.tick, MonitoringService.handleStatusChange,
          if_neg hA, if_pos hB, hga]
        refine ⟨by simp [hB.1], by simp [hB.1], by simp [hB.1, hr], ?_, ?_⟩
        · rw [openIncidentCount_resolveActive, hcnt, if_neg hr]
        · intro h
          exact absurd (h.trans hB.1) hB.2
    · simp only [MonitoringService.tick, MonitoringService.handleStatusChange,
        if_neg hA, if_neg hB]
      refine ⟨?_, ?_, ?_, ?_, by simp⟩
      · refine iff_of_false (by simp) ?_
        rintro ⟨h1, h2⟩
        exact hA ⟨h1, (toService_down_iff r.status).mpr h2⟩
      · refine iff_of_false (by simp) ?_
        rintro ⟨h1, h2⟩
        exact hA ⟨h1, (toService_down_iff r.status).mpr h2⟩
      · refine iff_of_false (by simp) ?_
        rintro ⟨h1, h2⟩
        exact hB ⟨h1, fun hc => h2 ((toService_down_iff r.status).mp hc)⟩
      · rw [hinv]
        by_cases hs : s.status = .down
        · have hr : r.status = .down := by
            by_contra hc
            exact hB ⟨hs, fun hts => hc ((toService_down_iff r.status).mp hts)⟩
          rw [if_pos hs, if_pos hr]
        · have hr : r.status ≠ .down := by
            intro hc
            exact hA ⟨hs, (toService_down_iff r.status).mpr hc⟩
          rw [if_neg hs, if_neg hr]

/-- One tick preserves the invariant. -/
theorem tick_preserves_invariant (serviceId : Nat) (s : MonitoringService.TargetState)
    (r : HealthCheckResult) (nowMs : Int) (ok : Bool)
    (hinv : MonitoringService.statusInvariant s) :
    MonitoringService.statusInvariant (MonitoringService.tick serviceId s r nowMs ok).1 := by
  have h := (tick_spec serviceId s r nowMs ok hinv).2.2.2.1
  unfold MonitoringService.statusInvariant
  have hst : (MonitoringService.tick serviceId s r nowMs ok).1.status =
      r.status.toService := rfl
  rw [h, hst]
  by_cases hr : r.status = .down
  · rw [if_pos hr, if_pos ((toService_down_iff r.status).mpr hr)]
  · rw [if_neg hr, if_neg (fun hc => hr ((toService_down_iff r.status).mp hc))]

/-- Any run of sequential ticks preserves the invariant. -/
theorem runTicks_invariant (serviceId : Nat)
    (ticks : List (HealthCheckResult × Int × Bool)) :
    ∀ s, MonitoringService.statusInvariant s →
      MonitoringService.statusInvariant (MonitoringService.runTicks serviceId s ticks) := by
  induction ticks with
  | nil => intro s h; exact h
  | cons p rest ih =>
    intro s h
    rcases p with ⟨r, now, ok⟩
    exact ih _ (tick_preserves_invariant serviceId s r now ok h)

/-- Claim C1: starting from a fresh target, any sequence of sequential ticks
leaves at most one open incident; per tick (from any state satisfying the
tracker invariant), an incident is created — and a down notification
attempted — exactly when the new status is down and the previous is not; the
active incident is resolved — and a recovery notification attempted — exactly
when the previous status is down and the new one is not (the open count after
a tick is 1 if the new status is down and 0 otherwise); and a tick repeating
the current status leaves the incident list untouched and triggers no
notification. -/
theorem C1_single_open_incident :
    (∀ (serviceId : Nat) (ticks : List (HealthCheckResult × Int × Bool)),
      MonitoringService.openIncidentCount
        ((MonitoringService.runTicks serviceId MonitoringService.initialState
          ticks).incidents) ≤ 1) ∧
    (∀ (serviceId : Nat) (s : MonitoringService.TargetState) (r : HealthCheckResult)
        (nowMs : Int) (ok : Bool), MonitoringService.statusInvariant s →
      (((MonitoringService.tick serviceId s r nowMs ok).2.incidentCreated = true ↔
          s.status ≠ .down ∧ r.status = .down) ∧
        ((MonitoringService.tick serviceId s r nowMs ok).2.downNotificationAttempted =
            true ↔ s.status ≠ .down ∧ r.status = .down) ∧
        ((MonitoringService.tick serviceId s r nowMs
            ok).2.recoveredNotificationAttempted = true ↔
          s.status = .down ∧ r.status ≠ .down) ∧
        MonitoringService.openIncidentCount
            (MonitoringService.tick serviceId s r nowMs ok).1.incidents =
          (if r.status = .down then 1 else 0) ∧
        (r.status.toService = s.status →
          (MonitoringService.tick serviceId s r nowMs ok).1.incidents = s.incidents ∧
          (MonitoringService.tick serviceId s r nowMs ok).2 = ⟨false, false, false⟩))) := by
  constructor
  · intro serviceId ticks
    have h := runTicks_invariant serviceId ticks MonitoringService.initialState
      (by unfold MonitoringService.statusInvariant; decide)
    unfold MonitoringService.statusInvariant at h
    rw [h]
    split_ifs <;> omega
  · intro serviceId s r nowMs ok hinv
    exact tick_spec serviceId s r nowMs ok hinv

/-- Witness for C1 on a concrete down/down/up run: the run leaves no open
incident, the first down tick creates an incident and attempts a
notification, and a repeated down tick changes nothing. -/
theorem C1_single_open_incident_witness :
    MonitoringService.openIncidentCount
      ((MonitoringService.runTicks 1 MonitoringService.initialState
        [(rDown, 1000, true), (rDown, 2000, true), (rUp, 9500, true)]).incidents) ≤ 1 ∧
    (MonitoringService.tick 1 MonitoringService.initialState rDown 1000
      true).2.incidentCreated = true ∧
    (MonitoringService.tick 1 stateDown1000 rDown 2000 true).1.incidents =
      [incDown1000] :=
  ⟨C1_single_open_incident.1 1 [(rDown, 1000, true), (rDown, 2000, true), (rUp, 9500, true)],
   (C1_single_open_incident.2 1 MonitoringService.initialState rDown 1000 true
      (by unfold MonitoringService.statusInvariant; decide)).1.mpr
     ⟨by decide, by decide⟩,
   ((C1_single_open_incident.2 1 stateDown1000 rDown 2000 true
      (by unfold MonitoringService.statusInvariant; decide)).2.2.2.2 (by decide)).1⟩
